import Mathlib

/-!
# Verification of the API-AGENT core against its specification

Shallow embedding of the repository's core (src/agent.py and
src/tools/api_tool.py) in Lean 4:

* `SessionContext`, `SessionManager.*` embed the bounded conversation
  history (src/agent.py, class `SessionManager`).
* `APIResponse`, `get_api_request`, `post_api_request` embed the API Call
  Executor (src/tools/api_tool.py).  The behaviour of the `requests`
  library (version >= 2.27) at the points the source relies on it is made
  explicit: `Response.raise_for_status` raises `HTTPError` (with the
  response attached) exactly when `400 <= status_code < 600`;
  `Response.json()` on a non-JSON body raises
  `requests.exceptions.JSONDecodeError`, which is a subclass of
  `RequestException` and carries no attached response; `json.loads` maps
  the JSON literal `null` to Python `None`.
* `Agent.run` embeds the orchestration loop (src/agent.py, class `Agent`).
  The pluggable reasoning engine is a parameter: its outcome (either an
  exception or a result object) is passed in, since the engine itself is
  an external collaborator.

Python `Optional[T]` fields are `Option T`; a field equal to Python `None`
is `none` ("absent").  Timestamps (`datetime.now()` defaults) play no role
in any claim and are omitted from the embedded records.
-/

/-- A JSON value, as produced by `requests.Response.json()` /
Python's `json.loads`. -/
inductive JsonValue where
  | null : JsonValue
  | bool (b : Bool) : JsonValue
  | num (n : Int) : JsonValue
  | str (s : String) : JsonValue
  | arr (elems : List JsonValue) : JsonValue
  | obj (fields : List (String × JsonValue)) : JsonValue

/-- The Python value of an `Optional[Any]` field that was assigned the
result of `Response.json()`: Python's `json.loads` decodes the JSON
literal `null` to `None`, and a pydantic `Optional` field holding `None`
is indistinguishable from an absent one. -/
def JsonValue.toPyOptional : JsonValue → Option JsonValue
  | .null => none
  | v => some v

/-- The record appended to `api_calls` telemetry by `Agent.run`
(src/agent.py lines 211-217): the dict
`{tool, url, method, success, status_code}`. -/
structure ApiCallRecord where
  tool : String
  url : String
  method : String
  success : Bool
  status_code : Option Nat
deriving Repr, DecidableEq

/-- Embeds the pydantic model `SessionContext` (src/agent.py lines 13-24):
one exchange of the conversation history.  The `timestamp` field
(defaulted to creation time) is omitted: no claim mentions it. -/
structure SessionContext where
  user_input : String
  agent_response : String
  tools_used : Option (List String) := none
  api_calls : Option (List ApiCallRecord) := none
deriving Repr, DecidableEq

namespace SessionManager

/-- Embeds `SessionManager.add_exchange` (src/agent.py lines 34-48): build
the exchange, append it, and if the history now exceeds `max_exchanges`
remove the oldest entry (`pop(0)`).  The state is the
`conversation_history` list; `max_exchanges` is the capacity fixed at
construction. -/
def add_exchange (max_exchanges : Nat) (history : List SessionContext)
    (exchange : SessionContext) : List SessionContext :=
  let appended := history ++ [exchange]
  if appended.length > max_exchanges then appended.tail else appended

/-- The two transcript lines one exchange contributes:
`"User: …"` then `"Agent: …"` (src/agent.py lines 59-60 and 71-72). -/
def renderExchange (e : SessionContext) : List String :=
  ["User: " ++ e.user_input, "Agent: " ++ e.agent_response]

/-- Embeds `SessionManager.get_context_summary` (src/agent.py lines
50-62): empty string on empty history, else the newline-joined rendering
of `conversation_history[-5:]` (Python negative slice: the last five
entries, or all of them when there are fewer). -/
def get_context_summary (history : List SessionContext) : String :=
  if history = [] then ""
  else
    let recent := history.drop (history.length - 5)
    String.intercalate "\n" (recent.flatMap renderExchange)

/-- Embeds `SessionManager.get_full_context` (src/agent.py lines 64-74):
empty string on empty history, else the newline-joined rendering of the
whole history. -/
def get_full_context (history : List SessionContext) : String :=
  if history = [] then ""
  else String.intercalate "\n" (history.flatMap renderExchange)

/-- Embeds `SessionManager.clear_session` (src/agent.py lines 76-78). -/
def clear_session (_history : List SessionContext) : List SessionContext :=
  []

/-- Result shape of `get_session_stats`.  Python computes
`average_exchange_length` with true division (`/`), so it is embedded as a
rational; the remaining fields are integers. -/
structure SessionStats where
  exchanges_count : Nat
  total_characters : Nat
  average_exchange_length : ℚ
  max_exchanges : Nat
deriving Repr, DecidableEq

/-- `sum(len(exchange.user_input) + len(exchange.agent_response) for …)`
(src/agent.py lines 82-83). -/
def totalChars (history : List SessionContext) : Nat :=
  (history.map fun e => e.user_input.length + e.agent_response.length).sum

/-- Embeds `SessionManager.get_session_stats` (src/agent.py lines 80-90):
the conditional expression `total_chars / len(...) if ... else 0` guards
the division on the empty history. -/
def get_session_stats (max_exchanges : Nat) (history : List SessionContext) :
    SessionStats :=
  let total_chars := totalChars history
  { exchanges_count := history.length
    total_characters := total_chars
    average_exchange_length :=
      if history = [] then 0 else (total_chars : ℚ) / (history.length : ℚ)
    max_exchanges := max_exchanges }

end SessionManager

/-- Embeds the pydantic model `APIResponse` (src/tools/api_tool.py lines
7-19): the Call Outcome of one HTTP call. -/
structure APIResponse where
  success : Bool
  status_code : Option Nat
  data : Option JsonValue
  error : Option String
  url : String
  method : String

/-- What one `requests.get`/`requests.post` call observed: either an HTTP
response was received (its status code, and the JSON decoding of its body
— `none` when the body is not valid JSON), or the transport failed before
any response (timeout, connection error) and `requests` raised with no
response attached. -/
inductive TransportResult where
  | ok (status : Nat) (body : Option JsonValue)
  | netError (msg : String)

namespace TransportResult

/-- `requests.Response.raise_for_status` raises `HTTPError` exactly for
status codes in `[400, 600)` (client and server errors). -/
def isHttpError (status : Nat) : Bool :=
  400 ≤ status && status < 600

/-- `str(e)` for the `HTTPError` raised by `raise_for_status`: a
non-empty message naming the status and the URL. -/
def httpErrorMsg (status : Nat) (url : String) : String :=
  toString status ++ " Error for url: " ++ url

/-- `str(e)` for the `requests.exceptions.JSONDecodeError` raised by
`Response.json()` on a body that is not valid JSON. -/
def jsonDecodeErrorMsg : String :=
  "Expecting value: line 1 column 1 (char 0)"

end TransportResult

/-- Embeds `get_api_request` (src/tools/api_tool.py lines 22-54) as a
function of the URL and of what the network did (`transport`).  The
`try` body performs `requests.get` then `raise_for_status` then builds
the success outcome from `response.json()`; the `except
requests.exceptions.RequestException` arm builds the failure outcome,
with `status_code` read from `e.response` — which is the received
response for `raise_for_status`'s `HTTPError`, and `None` both for
transport errors and for `JSONDecodeError` (which `requests` raises
without attaching the response).  The optional `headers` argument does
not influence the outcome shape and is omitted. -/
def get_api_request (url : String) (transport : TransportResult) :
    APIResponse :=
  match transport with
  | .netError msg =>
      { success := false, status_code := none, data := none
        error := some msg, url := url, method := "GET" }
  | .ok status body =>
      if TransportResult.isHttpError status then
        { success := false, status_code := some status, data := none
          error := some (TransportResult.httpErrorMsg status url)
          url := url, method := "GET" }
      else
        match body with
        | none =>
            { success := false, status_code := none, data := none
              error := some TransportResult.jsonDecodeErrorMsg
              url := url, method := "GET" }
        | some v =>
            { success := true, status_code := some status
              data := v.toPyOptional, error := none
              url := url, method := "GET" }

/-- Embeds `post_api_request` (src/tools/api_tool.py lines 57-90):
identical control flow to `get_api_request` with method `"POST"`; the
JSON-encoded request body `data` does not influence the outcome shape
beyond being sent. -/
def post_api_request (url : String) (_data : List (String × JsonValue))
    (transport : TransportResult) : APIResponse :=
  match transport with
  | .netError msg =>
      { success := false, status_code := none, data := none
        error := some msg, url := url, method := "POST" }
  | .ok status body =>
      if TransportResult.isHttpError status then
        { success := false, status_code := some status, data := none
          error := some (TransportResult.httpErrorMsg status url)
          url := url, method := "POST" }
      else
        match body with
        | none =>
            { success := false, status_code := none, data := none
              error := some TransportResult.jsonDecodeErrorMsg
              url := url, method := "POST" }
        | some v =>
            { success := true, status_code := some status
              data := v.toPyOptional, error := none
              url := url, method := "POST" }

/-- `step[0]` of an intermediate step: either a LangChain `AgentAction`
carrying a `tool` attribute, or any other object, for which the source
falls back to `str(step[0])` (src/agent.py line 206). -/
inductive ToolAction where
  | withTool (tool : String)
  | other (asString : String)
deriving Repr, DecidableEq

/-- `step[0].tool if hasattr(step[0], 'tool') else str(step[0])`. -/
def ToolAction.toolName : ToolAction → String
  | .withTool t => t
  | .other s => s

/-- `step[1]` of an intermediate step: the tool's structured result.  The
source duck-types it (src/agent.py line 210): a step result "carries the
Call Outcome shape" when it has both a `success` and a `url` attribute.
`outcome` is a genuine `APIResponse` (all five attributes present);
`shaped` is any other object that passes the `success`/`url` shape check
but lacks a `method` attribute, so reading `step[1].method` raises
`AttributeError`; `plain` is any object failing the shape check (e.g. a
string observation). -/
inductive ToolObservation where
  | outcome (r : APIResponse)
  | shaped (success : Bool) (url : String)
  | plain (s : String)

/-- One entry of `result["intermediate_steps"]`: per the reasoning-engine
contract the trace is an ordered sequence of pairs
`(tool_invocation, tool_result)`, so the guard `len(step) >= 2`
(src/agent.py line 205) always holds. -/
abbrev TraceStep := ToolAction × ToolObservation

/-- What `self.agent_executor.invoke(...)` returns when it does not raise:
a dict with `output` and possibly `intermediate_steps`
(`none` embeds a dict without that key). -/
structure EngineResult where
  output : String
  intermediate_steps : Option (List TraceStep)

/-- `str(e)` for the `AttributeError` raised when telemetry extraction
reads `step[1].method` on an object that has `success` and `url`
attributes but no `method` attribute. -/
def attributeErrorMsg : String :=
  "object has no attribute method"

/-- The telemetry-extraction loop of `Agent.run` (src/agent.py lines
203-217), threading the two accumulator lists `tools_used` and
`api_calls`.  The tool name is appended first; then, if the step result
passes the `success`/`url` shape check, the derived record is appended —
unless reading its `method` attribute raises, in which case the loop
aborts with the exception and the lists keep the values accumulated so
far (the current step's tool name included, since it was appended before
the shape check). -/
def extractTelemetry :
    List TraceStep → List String → List ApiCallRecord →
    List String × List ApiCallRecord × Option String
  | [], tools, apis => (tools, apis, none)
  | (action, obs) :: rest, tools, apis =>
      let tools' := tools ++ [action.toolName]
      match obs with
      | .outcome r =>
          extractTelemetry rest tools'
            (apis ++ [{ tool := action.toolName, url := r.url
                        method := r.method, success := r.success
                        status_code := r.status_code }])
      | .shaped _ _ => (tools', apis, some attributeErrorMsg)
      | .plain _ => extractTelemetry rest tools' apis

/-- The `metadata` dict built by `Agent.run` on both paths (src/agent.py
lines 232-236 and 246-250). -/
structure ResponseMetadata where
  input : String
  model : String
  context_exchanges : Nat
deriving Repr, DecidableEq

/-- Embeds the pydantic model `AgentResponse` (src/agent.py lines
93-106); `timestamp` (defaulted to creation time) is omitted. -/
structure AgentResponse where
  success : Bool
  message : String
  tools_used : Option (List String)
  api_calls : Option (List ApiCallRecord)
  error : Option String
  metadata : ResponseMetadata
deriving Repr, DecidableEq

/-- `xs if xs else None`: Python's truthiness turns an empty telemetry
list into `None` in the response (src/agent.py lines 230-231, 244-245). -/
def optOfList {α : Type} : List α → Option (List α)
  | [] => none
  | xs => some xs

/-- The generic failure notice of the except-arm (src/agent.py line 242). -/
def genericFailureMessage : String :=
  "An error occurred while processing your request"

/-- The hard-coded model identifier placed in `metadata` (src/agent.py
lines 234, 248). -/
def modelIdentifier : String :=
  "gemini-2.0-flash-001"

/-- Embeds `Agent.run` (src/agent.py lines 185-251) as a function from
the session state, the user input, and the reasoning engine's outcome to
the returned `AgentResponse` paired with the session history after the
turn.  The engine outcome is a parameter (`Except.error e` embeds
`agent_executor.invoke` raising an exception whose `str` is `e`): the
engine is the external collaborator, and `get_context_summary` — the
context fetch feeding it — is pure and cannot raise.  Control flow of the
source: everything up to the success `return` sits in one `try`; any
exception lands in the `except` arm, which builds the failure response
from the telemetry lists as accumulated at the raise point and leaves the
history untouched.  `add_exchange` receives the raw (possibly empty)
lists; only the response fields pass through the `xs if xs else None`
conversion.  `metadata.context_exchanges` reads the history length after
`add_exchange` on the success path and the unchanged length on the
failure path. -/
def Agent.run (max_exchanges : Nat) (history : List SessionContext)
    (input_text : String) (engine : Except String EngineResult) :
    AgentResponse × List SessionContext :=
  match engine with
  | .error e =>
      ({ success := false
         message := genericFailureMessage
         tools_used := optOfList []
         api_calls := optOfList ([] : List ApiCallRecord)
         error := some e
         metadata := ⟨input_text, modelIdentifier, history.length⟩ },
       history)
  | .ok result =>
      let extracted :=
        extractTelemetry (result.intermediate_steps.getD []) [] []
      match extracted with
      | (tools, apis, some e) =>
          ({ success := false
             message := genericFailureMessage
             tools_used := optOfList tools
             api_calls := optOfList apis
             error := some e
             metadata := ⟨input_text, modelIdentifier, history.length⟩ },
           history)
      | (tools, apis, none) =>
          let history' := SessionManager.add_exchange max_exchanges history
            { user_input := input_text
              agent_response := result.output
              tools_used := some tools
              api_calls := some apis }
          ({ success := true
             message := result.output
             tools_used := optOfList tools
             api_calls := optOfList apis
             error := none
             metadata := ⟨input_text, modelIdentifier, history'.length⟩ },
           history')

/-- Embeds `Agent.get_session_info` (src/agent.py lines 258-267).
`context_usage_percent` is computed by Python true division
`(count / max) * 100` with no guard: when `max_exchanges` is `0` the
division raises `ZeroDivisionError`, embedded as the `Except.error`
case. -/
structure SessionInfo where
  exchanges_count : Nat
  total_characters : Nat
  average_exchange_length : ℚ
  max_exchanges : Nat
  context_usage_percent : ℚ
deriving Repr, DecidableEq

/-- Python `/` on numbers: raises `ZeroDivisionError` on a zero
divisor, otherwise true division. -/
def pyDiv (a b : ℚ) : Except String ℚ :=
  if b = 0 then .error "ZeroDivisionError: division by zero"
  else .ok (a / b)

/-- Embeds `Agent.get_session_info` (src/agent.py lines 258-267): reads
`get_session_stats` and adds the unguarded usage percentage. -/
def Agent.get_session_info (max_exchanges : Nat)
    (history : List SessionContext) : Except String SessionInfo :=
  let stats := SessionManager.get_session_stats max_exchanges history
  (pyDiv (stats.exchanges_count : ℚ) (stats.max_exchanges : ℚ)).map
    fun q =>
      { exchanges_count := stats.exchanges_count
        total_characters := stats.total_characters
        average_exchange_length := stats.average_exchange_length
        max_exchanges := stats.max_exchanges
        context_usage_percent := q * 100 }

/-- The most recent `n` exchanges in their original (chronological)
order, written the way the specification describes them — take from the
reversed history and restore the order — rather than the way the source
computes them (a `drop` by `len - 5`).  Used to state the refinement in
claim C5. -/
def lastExchanges (n : Nat) (history : List SessionContext) :
    List SessionContext :=
  (history.reverse.take n).reverse

/-- A step result on which reading the `method` attribute raises: it
passes the duck-typed `success`/`url` shape check but is not a full Call
Outcome. -/
def ToolObservation.isBroken : ToolObservation → Bool
  | .shaped _ _ => true
  | _ => false

/-- The duck-typed shape check of src/agent.py line 210:
`hasattr(step[1], "success") and hasattr(step[1], "url")`. -/
def hasCallOutcomeShape : ToolObservation → Bool
  | .plain _ => false
  | _ => true

/-- The api-calls record a fully-shaped step contributes (src/agent.py
lines 211-217); `none` for a step that contributes no record. -/
def stepApiRecord : TraceStep → Option ApiCallRecord
  | (action, .outcome r) =>
      some { tool := action.toolName, url := r.url, method := r.method
             success := r.success, status_code := r.status_code }
  | _ => none

namespace SessionManager

lemma add_exchange_length_le (max_exchanges : Nat)
    (history : List SessionContext) (e : SessionContext)
    (h : history.length ≤ max_exchanges) :
    (add_exchange max_exchanges history e).length ≤ max_exchanges := by
  simp only [add_exchange]
  split
  · simp only [List.length_tail, List.length_append, List.length_singleton]
    omega
  · next hle =>
    simp only [List.length_append, List.length_singleton]
    simp only [gt_iff_lt, not_lt, List.length_append, List.length_singleton] at hle
    omega

lemma foldl_add_exchange_length_le (max_exchanges : Nat)
    (es : List SessionContext) :
    ∀ history : List SessionContext, history.length ≤ max_exchanges →
      (es.foldl (add_exchange max_exchanges) history).length ≤ max_exchanges := by
  induction es with
  | nil => intro history hh; simpa using hh
  | cons e es ih =>
      intro history hh
      exact ih _ (add_exchange_length_le _ _ _ hh)

lemma drop_sub_five_ne_nil (history : List SessionContext)
    (h : history ≠ []) : history.drop (history.length - 5) ≠ [] := by
  intro hcontra
  have hlen := congrArg List.length hcontra
  simp only [List.length_drop, List.length_nil] at hlen
  have : 0 < history.length := List.length_pos.mpr h
  omega

end SessionManager

/-- The relation between the `success`, `data` and `error` fields that
every Call Outcome produced by the executor actually satisfies (the
amended claim C3): `success` is true exactly when `error` is absent; a
present payload forces success; a failure carries no payload and does
carry an error.  `success` does not force a present payload: a 2xx
response whose body is the JSON literal `null` decodes to Python `None`,
leaving `data` absent on a successful outcome. -/
def outcomeInvariant (r : APIResponse) : Prop :=
  (r.success = true ↔ r.error = none)
  ∧ (r.data.isSome = true → r.success = true ∧ r.error = none)
  ∧ (r.success = false → r.data = none ∧ r.error.isSome = true)

/-- C1: history length never exceeds `max_exchanges` after any sequence
of `add_exchange` calls; an `add_exchange` on a full (non-empty) history
evicts exactly the oldest exchange; below capacity it is a plain append;
with capacity 2, adding A then B then C leaves exactly [B, C]. -/
theorem C1_history_bounded_fifo (max_exchanges : Nat) :
    (∀ es : List SessionContext,
        (es.foldl (SessionManager.add_exchange max_exchanges) []).length ≤
          max_exchanges)
    ∧ (∀ (history : List SessionContext) (e : SessionContext),
        history ≠ [] → history.length = max_exchanges →
        SessionManager.add_exchange max_exchanges history e =
          history.tail ++ [e])
    ∧ (∀ (history : List SessionContext) (e : SessionContext),
        history.length < max_exchanges →
        SessionManager.add_exchange max_exchanges history e = history ++ [e])
    ∧ (∀ a b c : SessionContext,
        SessionManager.add_exchange 2
          (SessionManager.add_exchange 2
            (SessionManager.add_exchange 2 [] a) b) c = [b, c]) := by
  refine ⟨?_, ?_, ?_, ?_⟩
  · intro es
    exact SessionManager.foldl_add_exchange_length_le _ es [] (Nat.zero_le _)
  · intro history e hne hfull
    simp only [SessionManager.add_exchange]
    rw [if_pos (by simp [hfull])]
    exact List.tail_append_of_ne_nil hne
  · intro history e hlt
    simp only [SessionManager.add_exchange]
    rw [if_neg (by simp; omega)]
  · intro a b c
    rfl

/-- C1 witness: with capacity 1, adding onto the full one-element history
evicts the resident exchange (the oldest) and keeps the new one. -/
theorem C1_history_bounded_fifo_witness :
    SessionManager.add_exchange 1 [⟨"a", "ra", none, none⟩]
        ⟨"b", "rb", none, none⟩ = [⟨"b", "rb", none, none⟩] := by
  have h := (C1_history_bounded_fifo 1).2.1 [⟨"a", "ra", none, none⟩]
    ⟨"b", "rb", none, none⟩ (by simp) rfl
  simpa using h

/-- C5: on a history of at most 5 exchanges the summary equals the full
context; in general the summary renders exactly the most recent 5
exchanges in chronological order (the full-context rendering of
`lastExchanges 5`); both context accessors return the empty string on the
empty history. -/
theorem C5_summary_vs_full (history : List SessionContext) :
    (history.length ≤ 5 →
      SessionManager.get_context_summary history =
        SessionManager.get_full_context history)
    ∧ SessionManager.get_context_summary history =
        SessionManager.get_full_context (lastExchanges 5 history)
    ∧ SessionManager.get_context_summary ([] : List SessionContext) = ""
    ∧ SessionManager.get_full_context ([] : List SessionContext) = "" := by
  refine ⟨?_, ?_, rfl, rfl⟩
  · intro hle
    by_cases hnil : history = []
    · subst hnil; rfl
    · simp only [SessionManager.get_context_summary,
        SessionManager.get_full_context, if_neg hnil]
      rw [Nat.sub_eq_zero_of_le hle, List.drop_zero]
  · by_cases hnil : history = []
    · subst hnil; rfl
    · have hdrop : (lastExchanges 5 history) =
          history.drop (history.length - 5) := by
        simpa [lastExchanges, List.rtake] using
          (List.rtake_eq_reverse_take_reverse history 5).symm
      have hne := SessionManager.drop_sub_five_ne_nil history hnil
      simp only [SessionManager.get_context_summary,
        SessionManager.get_full_context, if_neg hnil, hdrop, if_neg hne]

/-- C5 witness: a six-exchange history is summarized by the rendering of
its last five exchanges, and a one-exchange history (length ≤ 5) is
summarized by its own full context. -/
theorem C5_summary_vs_full_witness :
    SessionManager.get_context_summary [⟨"u", "a", none, none⟩] =
      SessionManager.get_full_context [⟨"u", "a", none, none⟩] :=
  (C5_summary_vs_full [⟨"u", "a", none, none⟩]).1 (by simp)

/-- C7: `get_session_stats` reports the exchange count, the summed
user+agent character length, an average satisfying
`average * count = total` (hence the mean when the history is non-empty),
`0` as the average on the empty history (no division-by-zero fault), and
the configured capacity. -/
theorem C7_session_stats (max_exchanges : Nat)
    (history : List SessionContext) :
    (SessionManager.get_session_stats max_exchanges history).exchanges_count
        = history.length
    ∧ (SessionManager.get_session_stats max_exchanges
          history).total_characters = SessionManager.totalChars history
    ∧ (SessionManager.get_session_stats max_exchanges
          history).average_exchange_length * (history.length : ℚ) =
        (SessionManager.totalChars history : ℚ)
    ∧ (history = [] →
        (SessionManager.get_session_stats max_exchanges
          history).average_exchange_length = 0)
    ∧ (SessionManager.get_session_stats max_exchanges history).max_exchanges
        = max_exchanges := by
  refine ⟨rfl, rfl, ?_, ?_, rfl⟩
  · by_cases hnil : history = []
    · subst hnil; simp [SessionManager.get_session_stats,
        SessionManager.totalChars]
    · have hpos : 0 < history.length := List.length_pos.mpr hnil
      have hq : (history.length : ℚ) ≠ 0 := by
        exact_mod_cast Nat.pos_iff_ne_zero.mp hpos
      simp only [SessionManager.get_session_stats, if_neg hnil]
      exact div_mul_cancel₀ _ hq
  · intro hnil
    subst hnil
    simp [SessionManager.get_session_stats]

/-- C7 witness: on the empty history the average exchange length is `0`
and no fault occurs. -/
theorem C7_session_stats_witness :
    (SessionManager.get_session_stats 50
      ([] : List SessionContext)).average_exchange_length = 0 :=
  (C7_session_stats 50 []).2.2.2.1 rfl

/-- C8: immediately after `clear_session`, `get_full_context` and
`get_context_summary` return the empty string and the reported exchange
count is `0`; the context accessors are read-only, so every subsequent
context call on the cleared state returns the empty string until an
exchange is added. -/
theorem C8_clear_session (max_exchanges : Nat)
    (history : List SessionContext) :
    SessionManager.get_full_context
        (SessionManager.clear_session history) = ""
    ∧ SessionManager.get_context_summary
        (SessionManager.clear_session history) = ""
    ∧ (SessionManager.get_session_stats max_exchanges
        (SessionManager.clear_session history)).exchanges_count = 0 :=
  ⟨rfl, rfl, rfl⟩

/-- C10: with `max_exchanges ≥ 1`, `get_session_info` returns without
fault and its `context_usage_percent` is the exchange count divided by
the capacity, times 100; with `max_exchanges = 0` the unguarded division
raises `ZeroDivisionError`, so the precondition is required. -/
theorem C10_session_info (max_exchanges : Nat)
    (history : List SessionContext) :
    (1 ≤ max_exchanges →
      Agent.get_session_info max_exchanges history =
        .ok { exchanges_count := history.length
              total_characters := SessionManager.totalChars history
              average_exchange_length :=
                (SessionManager.get_session_stats max_exchanges
                  history).average_exchange_length
              max_exchanges := max_exchanges
              context_usage_percent :=
                (history.length : ℚ) / (max_exchanges : ℚ) * 100 })
    ∧ (max_exchanges = 0 →
        Agent.get_session_info max_exchanges history =
          .error "ZeroDivisionError: division by zero") := by
  constructor
  · intro hpos
    have hq : (max_exchanges : ℚ) ≠ 0 := by
      exact_mod_cast Nat.pos_iff_ne_zero.mp hpos
    simp [Agent.get_session_info, pyDiv, hq,
      SessionManager.get_session_stats, Except.map]
  · intro hzero
    subst hzero
    simp [Agent.get_session_info, pyDiv,
      SessionManager.get_session_stats, Except.map]

/-- C10 witness: with capacity 1 and one stored exchange the usage is
100 percent and no fault occurs; with capacity 0 the call faults. -/
theorem C10_session_info_witness :
    Agent.get_session_info 1 [⟨"u", "a", none, none⟩] =
      .ok { exchanges_count := 1, total_characters := 2
            average_exchange_length := 2, max_exchanges := 1
            context_usage_percent := 100 }
    ∧ Agent.get_session_info 0 [] =
        .error "ZeroDivisionError: division by zero" := by
  constructor
  · have h := (C10_session_info 1 [⟨"u", "a", none, none⟩]).1 (by norm_num)
    rw [h]
    have hu : "u".length = 1 := rfl
    have ha : "a".length = 1 := rfl
    norm_num [SessionManager.get_session_stats, SessionManager.totalChars,
      hu, ha]
  · exact (C10_session_info 0 []).2 rfl

/-- C3 counterexample: a GET receiving HTTP 200 with body `null` (valid
JSON) yields `success=true` with `data` absent and `error` absent, so
"success iff payload present and error absent" fails in the left-to-right
direction, and "exactly one of payload, error is populated" fails too. -/
theorem C3_counterexample :
    (get_api_request "http://example.com/a"
        (.ok 200 (some JsonValue.null))).success = true
    ∧ (get_api_request "http://example.com/a"
        (.ok 200 (some JsonValue.null))).data = none
    ∧ (get_api_request "http://example.com/a"
        (.ok 200 (some JsonValue.null))).error = none
    ∧ ¬ ((get_api_request "http://example.com/a"
            (.ok 200 (some JsonValue.null))).success = true ↔
          (get_api_request "http://example.com/a"
            (.ok 200 (some JsonValue.null))).data.isSome = true ∧
          (get_api_request "http://example.com/a"
            (.ok 200 (some JsonValue.null))).error = none) := by
  refine ⟨rfl, rfl, rfl, ?_⟩
  intro hiff
  have := hiff.mp rfl
  exact absurd this.1 (by decide)

/-- C3 (amended): for every GET or POST Call Outcome, `success` is true
iff `error` is absent; a present payload implies success; on failure the
payload is absent and an error is present.  (The original biconditional
with payload presence fails only when a successful response body is the
JSON literal `null`.) -/
theorem C3_success_error_relation (url : String)
    (d : List (String × JsonValue)) (t : TransportResult) :
    outcomeInvariant (get_api_request url t)
    ∧ outcomeInvariant (post_api_request url d t) := by
  constructor
  · cases t with
    | netError msg => simp [get_api_request, outcomeInvariant]
    | ok status body =>
        cases hs : TransportResult.isHttpError status with
        | true => simp [get_api_request, outcomeInvariant, hs]
        | false =>
            cases body with
            | none => simp [get_api_request, outcomeInvariant, hs]
            | some v => simp [get_api_request, outcomeInvariant, hs]
  · cases t with
    | netError msg => simp [post_api_request, outcomeInvariant]
    | ok status body =>
        cases hs : TransportResult.isHttpError status with
        | true => simp [post_api_request, outcomeInvariant, hs]
        | false =>
            cases body with
            | none => simp [post_api_request, outcomeInvariant, hs]
            | some v => simp [post_api_request, outcomeInvariant, hs]

/-- C3 witness: the amended relation evaluated on a successful GET with a
non-null JSON body. -/
theorem C3_success_error_relation_witness :
    (get_api_request "http://example.com/a"
        (.ok 200 (some (JsonValue.num 1)))).success = true
    ∧ (get_api_request "http://example.com/a"
        (.ok 200 (some (JsonValue.num 1)))).error = none :=
  ⟨((C3_success_error_relation "http://example.com/a" []
      (.ok 200 (some (JsonValue.num 1)))).1.1).mpr rfl, rfl⟩

/-- C4 counterexample: a GET receiving HTTP 200 whose body is not valid
JSON is a failure in which a status *was* received, yet the outcome's
`status_code` is absent rather than equal to that status — the raised
`JSONDecodeError` carries no attached response. -/
theorem C4_counterexample :
    (get_api_request "http://example.com/a" (.ok 200 none)).success = false
    ∧ (get_api_request "http://example.com/a" (.ok 200 none)).status_code
        = none
    ∧ (get_api_request "http://example.com/a" (.ok 200 none)).status_code
        ≠ some 200 := by
  refine ⟨rfl, rfl, ?_⟩
  simp [get_api_request, TransportResult.isHttpError]

/-- C4 (amended): both executors never raise and return failure outcomes
with `success=false`, a present error and an absent payload on each of
the three failure triggers — transport failure, HTTP status in 400–599
(the statuses `raise_for_status` treats as errors), and an
undecodable JSON body on a non-error status; `status_code` is the
received status exactly on the HTTP-status-error trigger and is absent on
the other two (absent even though a status was received, on the
JSON-decode trigger); a GET to an endpoint answering HTTP 404 yields
`{success:false, status_code:404, error non-empty, data absent}`. -/
theorem C4_failure_outcomes (url : String)
    (d : List (String × JsonValue)) :
    (∀ msg, get_api_request url (.netError msg) =
        ⟨false, none, none, some msg, url, "GET"⟩
      ∧ post_api_request url d (.netError msg) =
        ⟨false, none, none, some msg, url, "POST"⟩)
    ∧ (∀ status body, TransportResult.isHttpError status = true →
        get_api_request url (.ok status body) =
          ⟨false, some status, none,
            some (TransportResult.httpErrorMsg status url), url, "GET"⟩
        ∧ post_api_request url d (.ok status body) =
          ⟨false, some status, none,
            some (TransportResult.httpErrorMsg status url), url, "POST"⟩)
    ∧ (∀ status, TransportResult.isHttpError status = false →
        get_api_request url (.ok status none) =
          ⟨false, none, none, some TransportResult.jsonDecodeErrorMsg,
            url, "GET"⟩
        ∧ post_api_request url d (.ok status none) =
          ⟨false, none, none, some TransportResult.jsonDecodeErrorMsg,
            url, "POST"⟩)
    ∧ (∀ body, get_api_request url (.ok 404 body) =
          ⟨false, some 404, none,
            some (TransportResult.httpErrorMsg 404 url), url, "GET"⟩
        ∧ TransportResult.httpErrorMsg 404 url ≠ "") := by
  refine ⟨?_, ?_, ?_, ?_⟩
  · intro msg
    exact ⟨rfl, rfl⟩
  · intro status body hs
    constructor <;> simp [get_api_request, post_api_request, hs]
  · intro status hs
    constructor <;> simp [get_api_request, post_api_request, hs]
  · intro body
    have h404 : TransportResult.isHttpError 404 = true := rfl
    refine ⟨?_, ?_⟩
    · simp [get_api_request, h404]
    · intro hempty
      have hlen := congrArg String.length hempty
      simp [TransportResult.httpErrorMsg, String.length_append] at hlen
      exact absurd hlen.1.2 (by decide)

/-- C4 witness: the 404 scenario at a concrete URL — failure, status 404,
non-empty error, absent payload — via the amended theorem. -/
theorem C4_failure_outcomes_witness :
    get_api_request "http://example.com/a" (.ok 404 (some (JsonValue.num 1)))
      = ⟨false, some 404, none,
          some (TransportResult.httpErrorMsg 404 "http://example.com/a"),
          "http://example.com/a", "GET"⟩
    ∧ TransportResult.httpErrorMsg 404 "http://example.com/a" ≠ "" :=
  (C4_failure_outcomes "http://example.com/a" []).2.2.2
    (some (JsonValue.num 1))

lemma optOfList_ne_some_nil {α : Type} (l : List α) :
    optOfList l ≠ some ([] : List α) := by
  cases l <;> simp [optOfList]

lemma run_telemetry_fields (max_exchanges : Nat)
    (history : List SessionContext) (input_text : String)
    (r : EngineResult) (tools : List String) (apis : List ApiCallRecord)
    (exn : Option String)
    (hE : extractTelemetry (r.intermediate_steps.getD []) [] [] =
      (tools, apis, exn)) :
    (Agent.run max_exchanges history input_text (.ok r)).1.tools_used =
        optOfList tools
    ∧ (Agent.run max_exchanges history input_text (.ok r)).1.api_calls =
        optOfList apis := by
  cases exn <;> simp [Agent.run, hE]

lemma extractTelemetry_no_broken (steps : List TraceStep)
    (h : ∀ st ∈ steps, st.2.isBroken = false) :
    ∀ tools apis,
      extractTelemetry steps tools apis =
        (tools ++ steps.map (fun st => st.1.toolName),
         apis ++ steps.filterMap stepApiRecord, none) := by
  induction steps with
  | nil => intro tools apis; simp [extractTelemetry]
  | cons st rest ih =>
      obtain ⟨action, obs⟩ := st
      intro tools apis
      have hrest : ∀ st ∈ rest, st.2.isBroken = false :=
        fun s hs => h s (List.mem_cons_of_mem _ hs)
      cases obs with
      | outcome r =>
          simp [extractTelemetry, stepApiRecord, ih hrest,
            List.append_assoc]
      | shaped su u =>
          have hb := h (action, .shaped su u) (List.mem_cons_self _ _)
          simp [ToolObservation.isBroken] at hb
      | plain s =>
          simp [extractTelemetry, stepApiRecord, ih hrest,
            List.append_assoc]

lemma stepApiRecord_count (steps : List TraceStep)
    (h : ∀ st ∈ steps, st.2.isBroken = false) :
    (steps.filterMap stepApiRecord).length =
      (steps.filter (fun st => hasCallOutcomeShape st.2)).length := by
  induction steps with
  | nil => rfl
  | cons st rest ih =>
      obtain ⟨action, obs⟩ := st
      have hrest : ∀ st ∈ rest, st.2.isBroken = false :=
        fun s hs => h s (List.mem_cons_of_mem _ hs)
      cases obs with
      | outcome r =>
          simp [stepApiRecord, hasCallOutcomeShape, ih hrest]
      | shaped su u =>
          have hb := h (action, .shaped su u) (List.mem_cons_self _ _)
          simp [ToolObservation.isBroken] at hb
      | plain s =>
          simp [stepApiRecord, hasCallOutcomeShape, ih hrest]

/-- C2: whenever the turn raises — the reasoning invocation itself fails,
or telemetry extraction faults on a malformed step result — `Agent.run`
catches the exception and returns a response with `success=false`, the
generic failure notice, `error` set to the textual description of the
exception, and the telemetry accumulated up to the raise point; the
history is returned unchanged, so the failing turn never appears in
`get_full_context` afterwards.  The last conjunct states the
history-preservation for every failed run, whatever its cause. -/
theorem C2_failure_path (max_exchanges : Nat)
    (history : List SessionContext) (input_text : String) :
    (∀ e : String,
        (Agent.run max_exchanges history input_text (.error e)).1 =
          { success := false, message := genericFailureMessage
            tools_used := none, api_calls := none, error := some e
            metadata := ⟨input_text, modelIdentifier, history.length⟩ }
        ∧ (Agent.run max_exchanges history input_text (.error e)).2 =
            history)
    ∧ (∀ (r : EngineResult) (tools : List String)
          (apis : List ApiCallRecord) (e : String),
        extractTelemetry (r.intermediate_steps.getD []) [] [] =
          (tools, apis, some e) →
        (Agent.run max_exchanges history input_text (.ok r)).1 =
          { success := false, message := genericFailureMessage
            tools_used := optOfList tools, api_calls := optOfList apis
            error := some e
            metadata := ⟨input_text, modelIdentifier, history.length⟩ }
        ∧ (Agent.run max_exchanges history input_text (.ok r)).2 =
            history)
    ∧ (∀ engine : Except String EngineResult,
        (Agent.run max_exchanges history input_text engine).1.success =
          false →
        (Agent.run max_exchanges history input_text engine).2 = history
        ∧ SessionManager.get_full_context
            ((Agent.run max_exchanges history input_text engine).2) =
          SessionManager.get_full_context history) := by
  refine ⟨?_, ?_, ?_⟩
  · intro e
    exact ⟨rfl, rfl⟩
  · intro r tools apis e hE
    constructor <;> simp [Agent.run, hE, optOfList]
  · intro engine hfail
    cases engine with
    | error e => exact ⟨rfl, rfl⟩
    | ok r =>
        rcases hE : extractTelemetry (r.intermediate_steps.getD []) [] []
          with ⟨tools, apis, exn⟩
        cases exn with
        | some e => constructor <;> simp [Agent.run, hE]
        | none => simp [Agent.run, hE] at hfail

/-- C2 witness: an engine result whose trace holds one step that passes
the shape check but lacks the `method` attribute makes extraction raise;
the run fails with that exception text, keeps the tool name collected
before the raise, and leaves the (empty) history unchanged. -/
theorem C2_failure_path_witness :
    (Agent.run 2 [] "hi" (.ok ⟨"out",
        some [(ToolAction.withTool "get_api_request",
               ToolObservation.shaped true "http://x")]⟩)).1 =
      { success := false, message := genericFailureMessage
        tools_used := some ["get_api_request"], api_calls := none
        error := some attributeErrorMsg
        metadata := ⟨"hi", modelIdentifier, 0⟩ }
    ∧ (Agent.run 2 [] "hi" (.ok ⟨"out",
        some [(ToolAction.withTool "get_api_request",
               ToolObservation.shaped true "http://x")]⟩)).2 = [] := by
  have h := (C2_failure_path 2 [] "hi").2.1
    ⟨"out", some [(ToolAction.withTool "get_api_request",
                   ToolObservation.shaped true "http://x")]⟩
    ["get_api_request"] [] attributeErrorMsg rfl
  exact h

/-- C6: on a trace whose step results are well-formed, the run succeeds,
`tools_used` lists every step's tool identifier in trace order, and
`api_calls` holds one derived record per step whose result carries the
Call Outcome shape (and nothing else): its length equals the number of
shape-carrying steps. -/
theorem C6_telemetry_trace (max_exchanges : Nat)
    (history : List SessionContext) (input_text : String)
    (r : EngineResult) (steps : List TraceStep)
    (hsteps : r.intermediate_steps = some steps)
    (hclean : ∀ st ∈ steps, st.2.isBroken = false) :
    (Agent.run max_exchanges history input_text (.ok r)).1.success = true
    ∧ (Agent.run max_exchanges history input_text (.ok r)).1.tools_used =
        optOfList (steps.map fun st => st.1.toolName)
    ∧ (Agent.run max_exchanges history input_text (.ok r)).1.api_calls =
        optOfList (steps.filterMap stepApiRecord)
    ∧ (steps.filterMap stepApiRecord).length =
        (steps.filter fun st => hasCallOutcomeShape st.2).length := by
  have hE := extractTelemetry_no_broken steps hclean [] []
  simp only [List.nil_append] at hE
  refine ⟨?_, ?_, ?_, stepApiRecord_count steps hclean⟩ <;>
    simp [Agent.run, hsteps, hE]

/-- C6 witness: a trace of two tool-invocation steps, one of which wraps
a Call Outcome, yields `tools_used` of length 2 and `api_calls` of length
1. -/
theorem C6_telemetry_trace_witness :
    (Agent.run 5 [] "query" (.ok ⟨"done",
        some [(ToolAction.withTool "search", ToolObservation.plain "obs"),
              (ToolAction.withTool "get_api_request", ToolObservation.outcome
                ⟨true, some 200, none, none, "http://x", "GET"⟩)]⟩)).1.tools_used
      = some ["search", "get_api_request"]
    ∧ (Agent.run 5 [] "query" (.ok ⟨"done",
        some [(ToolAction.withTool "search", ToolObservation.plain "obs"),
              (ToolAction.withTool "get_api_request", ToolObservation.outcome
                ⟨true, some 200, none, none, "http://x", "GET"⟩)]⟩)).1.api_calls
      = some [⟨"get_api_request", "http://x", "GET", true, some 200⟩] := by
  have h := C6_telemetry_trace 5 [] "query"
    ⟨"done",
      some [(ToolAction.withTool "search", ToolObservation.plain "obs"),
            (ToolAction.withTool "get_api_request", ToolObservation.outcome
              ⟨true, some 200, none, none, "http://x", "GET"⟩)]⟩
    [(ToolAction.withTool "search", ToolObservation.plain "obs"),
     (ToolAction.withTool "get_api_request", ToolObservation.outcome
       ⟨true, some 200, none, none, "http://x", "GET"⟩)]
    rfl (by intro st hst; fin_cases hst <;> rfl)
  exact ⟨h.2.1, h.2.2.1⟩

/-- C9: a telemetry field of the returned response is a `some` only on a
non-empty list (never `some []`); when the engine raises, both fields are
`none`; on every engine result, each field is exactly the
truthiness-converted accumulator (`some` of the collected list when
non-empty, `none` when nothing was collected), on the success and the
failure path alike. -/
theorem C9_telemetry_presence (max_exchanges : Nat)
    (history : List SessionContext) (input_text : String)
    (engine : Except String EngineResult) :
    (∀ l, (Agent.run max_exchanges history input_text engine).1.tools_used
        = some l → l ≠ [])
    ∧ (∀ l, (Agent.run max_exchanges history input_text engine).1.api_calls
        = some l → l ≠ [])
    ∧ (∀ e, engine = .error e →
        (Agent.run max_exchanges history input_text engine).1.tools_used
          = none
        ∧ (Agent.run max_exchanges history input_text engine).1.api_calls
          = none)
    ∧ (∀ (r : EngineResult) (tools : List String)
          (apis : List ApiCallRecord) (exn : Option String),
        engine = .ok r →
        extractTelemetry (r.intermediate_steps.getD []) [] [] =
          (tools, apis, exn) →
        (Agent.run max_exchanges history input_text engine).1.tools_used
          = optOfList tools
        ∧ (Agent.run max_exchanges history input_text engine).1.api_calls
          = optOfList apis) := by
  refine ⟨?_, ?_, ?_, ?_⟩
  · intro l hl
    cases engine with
    | error e => simp [Agent.run, optOfList] at hl
    | ok r =>
        rcases hE : extractTelemetry (r.intermediate_steps.getD []) [] []
          with ⟨tools, apis, exn⟩
        have hfields := run_telemetry_fields max_exchanges history
          input_text r tools apis exn hE
        rw [hfields.1] at hl
        intro hnil
        subst hnil
        exact optOfList_ne_some_nil tools hl
  · intro l hl
    cases engine with
    | error e => simp [Agent.run, optOfList] at hl
    | ok r =>
        rcases hE : extractTelemetry (r.intermediate_steps.getD []) [] []
          with ⟨tools, apis, exn⟩
        have hfields := run_telemetry_fields max_exchanges history
          input_text r tools apis exn hE
        rw [hfields.2] at hl
        intro hnil
        subst hnil
        exact optOfList_ne_some_nil apis hl
  · intro e he
    subst he
    exact ⟨rfl, rfl⟩
  · intro r tools apis exn he hE
    subst he
    exact run_telemetry_fields max_exchanges history input_text r tools
      apis exn hE

/-- C9 witness: an engine result with an empty trace yields a response
with both telemetry fields absent (`none`), not empty lists. -/
theorem C9_telemetry_presence_witness :
    (Agent.run 1 [] "x"
        (.ok ⟨"out", none⟩)).1.tools_used = none
    ∧ (Agent.run 1 [] "x"
        (.ok ⟨"out", none⟩)).1.api_calls = none := by
  have h := (C9_telemetry_presence 1 [] "x"
    (.ok ⟨"out", none⟩)).2.2.2 ⟨"out", none⟩ [] [] none rfl rfl
  exact h

